import Mathlib

/-!
Verification of the LaSRC Landsat surface-reflectance core
(src/lasrc/c_version/src/compute_landsat_refl.c) against its
natural-language specification.  The per-pixel arithmetic is embedded over
the rationals; the inner radiative-transfer kernels (atmcorlamb2,
subaeroret_new), whose sources are not part of this tree, are abstracted
as function parameters where a claim only concerns the calling code.
-/

namespace LasrcRefl

/-- Clamp used when a surface reflectance value is stored
(compute_landsat_refl.c, lines 643-648 and 1344-1349); the numeric bounds
MIN_VALID_REFL and MAX_VALID_REFL live in a header outside this tree, so
they are parameters here. -/
def clampRefl (minv maxv x : ℚ) : ℚ :=
  if x < minv then minv else if maxv < x then maxv else x

/-- Climatology-based atmospheric correction applied to one pixel of one
band (lines 639-640): roslamb = (rho - tgo*roatm) and then
roslamb /= tgo*ttatmg + satm*roslamb. -/
def climAtmcorr (tgo roatm ttatmg satm rho : ℚ) : ℚ :=
  (rho - tgo * roatm) / (tgo * ttatmg + satm * (rho - tgo * roatm))

/-- Stored result of the climatology correction: the corrected value
clamped into the valid reflectance range (lines 639-648). -/
def climAtmcorrStored (minv maxv tgo roatm ttatmg satm rho : ℚ) : ℚ :=
  clampRefl minv maxv (climAtmcorr tgo roatm ttatmg satm rho)

/-- TOA reconstruction performed by the final correction stage
(lines 1309-1311): rotoa = (rsurf*bttatmg/(1 - bsatm*rsurf) + broatm)*btgo. -/
def reconstructTOA (tgo roatm ttatmg satm rsurf : ℚ) : ℚ :=
  (rsurf * ttatmg / (1 - satm * rsurf) + roatm) * tgo

/-- Exact round-trip identity behind claim C1: reconstructing the TOA from
an unclamped climatology-corrected value recovers the input exactly. -/
theorem reconstruct_climAtmcorr (tgo roatm ttatmg satm rho : ℚ)
    (hden1 : tgo * ttatmg + satm * (rho - tgo * roatm) ≠ 0)
    (hden2 : 1 - satm * climAtmcorr tgo roatm ttatmg satm rho ≠ 0) :
    reconstructTOA tgo roatm ttatmg satm (climAtmcorr tgo roatm ttatmg satm rho) = rho := by
  have hone : 1 - satm * climAtmcorr tgo roatm ttatmg satm rho
      = tgo * ttatmg / (tgo * ttatmg + satm * (rho - tgo * roatm)) := by
    unfold climAtmcorr
    field_simp
  have hgt : tgo * ttatmg ≠ 0 := by
    rw [hone] at hden2
    intro h0
    exact hden2 (by rw [h0]; simp)
  have htgo : tgo ≠ 0 := fun h => hgt (by rw [h]; ring)
  have httatmg : ttatmg ≠ 0 := fun h => hgt (by rw [h]; ring)
  unfold reconstructTOA
  rw [hone]
  unfold climAtmcorr
  field_simp
  ring

/-- C1: for every reflectance band and non-fill pixel whose climatology
correction result was stored without clamping and whose denominators are
nonzero, the TOA reconstruction of the final correction stage recovers the
pre-correction TOA reflectance within 1e-5 (here: exactly, hence within
the tolerance). -/
theorem climatology_roundtrip_C1 (tgo roatm ttatmg satm rho minv maxv : ℚ)
    (hlo : minv ≤ climAtmcorr tgo roatm ttatmg satm rho)
    (hhi : climAtmcorr tgo roatm ttatmg satm rho ≤ maxv)
    (hden1 : tgo * ttatmg + satm * (rho - tgo * roatm) ≠ 0)
    (hden2 : 1 - satm * climAtmcorrStored minv maxv tgo roatm ttatmg satm rho ≠ 0) :
    |reconstructTOA tgo roatm ttatmg satm
        (climAtmcorrStored minv maxv tgo roatm ttatmg satm rho) - rho| ≤ 1 / 100000 := by
  have hstore : climAtmcorrStored minv maxv tgo roatm ttatmg satm rho
      = climAtmcorr tgo roatm ttatmg satm rho := by
    unfold climAtmcorrStored clampRefl
    rw [if_neg (not_lt.mpr hlo), if_neg (not_lt.mpr hhi)]
  rw [hstore] at hden2 ⊢
  rw [reconstruct_climAtmcorr tgo roatm ttatmg satm rho hden1 hden2]
  norm_num

/-- Witness for C1 at tgo = 1, roatm = 0, ttatmg = 1, satm = 0, rho = 1/2,
bounds [0, 1]. -/
theorem climatology_roundtrip_C1_witness :
    |reconstructTOA 1 0 1 0 (climAtmcorrStored 0 1 1 0 1 0 (1/2)) - 1/2| ≤ 1 / 100000 :=
  climatology_roundtrip_C1 1 0 1 0 (1/2) 0 1
    (by norm_num [climAtmcorr]) (by norm_num [climAtmcorr])
    (by norm_num) (by norm_num [climAtmcorrStored, climAtmcorr, clampRefl])

/-- Modelled from the spec: Angstrom-exponent bounds LOW_EPS = 1.0,
MOD_EPS = 1.75 and HIGH_EPS = 2.5 (spec section 6 tunables); the header
defining them is not under src. -/
def LOW_EPS : ℚ := 1

/-- Modelled from the spec: the middle epsilon sample, 1.75. -/
def MOD_EPS : ℚ := 7/4

/-- Modelled from the spec: the upper epsilon bound, 2.5. -/
def HIGH_EPS : ℚ := 5/2

/-- Parabolic minimizer over the three (epsilon, residual) samples
(lines 1066-1068), with eps1 = LOW_EPS, eps2 = MOD_EPS, eps3 = HIGH_EPS as
assigned at lines 1025, 1036 and 1045. -/
def parabolicEpsMin (residual1 residual2 residual3 : ℚ) : ℚ :=
  let xa := (residual1 - residual3) * (MOD_EPS - HIGH_EPS)
  let xb := (residual2 - residual3) * (LOW_EPS - HIGH_EPS)
  1/2 * (xa * (MOD_EPS + HIGH_EPS) - xb * (LOW_EPS + HIGH_EPS)) / (xa - xb)

/-- Outcome of the epsilon selection after the parabolic fit: the adopted
eps, residual and raot, and whether a fourth subaeroret_new call was made. -/
structure EpsOutcome where
  eps : ℚ
  residual : ℚ
  raot : ℚ
  fourthCall : Bool
deriving DecidableEq

/-- Selection step after the parabolic fit (lines 1069-1088).  The code
keeps the result of a fourth subaeroret_new call when
LOW_EPS <= epsmin <= HIGH_EPS, adopts the eps1 outcome when
epsmin <= LOW_EPS, and the eps3 outcome when epsmin >= HIGH_EPS; the
rerun parameter abstracts the fourth subaeroret_new call, mapping epsmin to
its (residual, raot) pair.  The last arm is the (unreachable) C
fall-through, where eps = epsmin and residual, raot keep the values of the
third call. -/
def epsSelect (residual1 residual3 sraot1 sraot3 : ℚ)
    (rerun : ℚ → ℚ × ℚ) (epsmin : ℚ) : EpsOutcome :=
  if LOW_EPS ≤ epsmin ∧ epsmin ≤ HIGH_EPS then
    ⟨epsmin, (rerun epsmin).1, (rerun epsmin).2, true⟩
  else if epsmin ≤ LOW_EPS then ⟨LOW_EPS, residual1, sraot1, false⟩
  else if HIGH_EPS ≤ epsmin then ⟨HIGH_EPS, residual3, sraot3, false⟩
  else ⟨epsmin, residual3, sraot3, false⟩

/-- C2 counterexample: for residuals (0, 9/16, 9/4) the parabolic minimizer
is exactly LOW_EPS = 1, which is not strictly inside (LOW_EPS, HIGH_EPS);
the claim then demands the eps1 outcome with no further call, but the code
performs the fourth subaeroret_new call (boundary test is inclusive). -/
theorem epsSelect_C2_counterexample :
    parabolicEpsMin 0 (9/16) (9/4) = LOW_EPS ∧
    ¬ (LOW_EPS < parabolicEpsMin 0 (9/16) (9/4)) ∧
    (epsSelect 0 (9/4) 7 9 (fun e => (e + 100, e + 200))
        (parabolicEpsMin 0 (9/16) (9/4))).fourthCall = true ∧
    epsSelect 0 (9/4) 7 9 (fun e => (e + 100, e + 200))
        (parabolicEpsMin 0 (9/16) (9/4)) ≠ ⟨LOW_EPS, 0, 7, false⟩ := by
  refine ⟨?_, ?_, ?_, ?_⟩ <;>
    norm_num [parabolicEpsMin, epsSelect, LOW_EPS, MOD_EPS, HIGH_EPS]

/-- C2 amended: the fourth subaeroret_new call happens exactly when
LOW_EPS <= epsmin <= HIGH_EPS (boundaries included); for epsmin < LOW_EPS
the eps1 outcome is adopted without another call, and for
epsmin > HIGH_EPS the eps3 outcome. -/
theorem epsSelect_C2_amended (residual1 residual3 sraot1 sraot3 epsmin : ℚ)
    (rerun : ℚ → ℚ × ℚ) :
    ((epsSelect residual1 residual3 sraot1 sraot3 rerun epsmin).fourthCall = true
        ↔ (LOW_EPS ≤ epsmin ∧ epsmin ≤ HIGH_EPS)) ∧
    (epsmin < LOW_EPS →
      epsSelect residual1 residual3 sraot1 sraot3 rerun epsmin
        = ⟨LOW_EPS, residual1, sraot1, false⟩) ∧
    (HIGH_EPS < epsmin →
      epsSelect residual1 residual3 sraot1 sraot3 rerun epsmin
        = ⟨HIGH_EPS, residual3, sraot3, false⟩) := by
  unfold epsSelect
  refine ⟨?_, ?_, ?_⟩
  · split_ifs with h1 h2 h3 <;> simp_all
  · intro hlt
    split_ifs with h1 h2
    · exact absurd h1.1 (not_le.mpr hlt)
    · rfl
    · exact absurd (le_of_lt hlt) h2
    · exact absurd (le_of_lt hlt) h2
  · intro hgt
    split_ifs with h1 h2 h3
    · exact absurd h1.2 (not_le.mpr hgt)
    · exfalso
      norm_num [LOW_EPS] at h2
      norm_num [HIGH_EPS] at hgt
      linarith
    · rfl
    · exact absurd (le_of_lt hgt) h3

/-- Witness for the amended C2 at epsmin = 1/2 and epsmin = 3. -/
theorem epsSelect_C2_amended_witness :
    epsSelect 3 4 5 6 (fun e => (e, e)) (1/2) = ⟨LOW_EPS, 3, 5, false⟩ ∧
    epsSelect 3 4 5 6 (fun e => (e, e)) 3 = ⟨HIGH_EPS, 4, 6, false⟩ :=
  ⟨(epsSelect_C2_amended 3 4 5 6 (1/2) (fun e => (e, e))).2.1
      (by norm_num [LOW_EPS]),
   (epsSelect_C2_amended 3 4 5 6 3 (fun e => (e, e))).2.2
      (by norm_num [HIGH_EPS])⟩

/-- C4 counterexample: at residuals (0.04, 0.01, 0.03) the parabolic
minimizer is exactly 73/40 = 1.825, which is not approximately 1.85 (it
differs from 1.85 by 0.025, more than half a unit in the last quoted
decimal place). -/
theorem parabolicEpsMin_C4_counterexample :
    parabolicEpsMin (1/25) (1/100) (3/100) = 73/40 ∧
    ¬ |parabolicEpsMin (1/25) (1/100) (3/100) - 37/20| < 1/200 := by
  have hval : parabolicEpsMin (1/25) (1/100) (3/100) = 73/40 := by
    norm_num [parabolicEpsMin, LOW_EPS, MOD_EPS, HIGH_EPS]
  refine ⟨hval, ?_⟩
  rw [hval, show (73/40 : ℚ) - 37/20 = -(1/40) by norm_num, abs_neg,
    abs_of_pos (by norm_num : (0:ℚ) < 1/40)]
  norm_num

/-- C4 amended: at residuals (0.04, 0.01, 0.03) the parabolic minimizer is
exactly 1.825 (about 1.83); it lies in [LOW_EPS, HIGH_EPS], so the
inverter re-runs subaeroret_new at that eps_min. -/
theorem parabolicEpsMin_C4_amended :
    parabolicEpsMin (1/25) (1/100) (3/100) = 73/40 ∧
    LOW_EPS ≤ (73/40 : ℚ) ∧ (73/40 : ℚ) ≤ HIGH_EPS ∧
    ∀ residual1 residual3 sraot1 sraot3 rerun,
      (epsSelect residual1 residual3 sraot1 sraot3 rerun
          (parabolicEpsMin (1/25) (1/100) (3/100))).fourthCall = true ∧
      (epsSelect residual1 residual3 sraot1 sraot3 rerun
          (parabolicEpsMin (1/25) (1/100) (3/100))).eps
        = parabolicEpsMin (1/25) (1/100) (3/100) := by
  have hval : parabolicEpsMin (1/25) (1/100) (3/100) = 73/40 := by
    norm_num [parabolicEpsMin, LOW_EPS, MOD_EPS, HIGH_EPS]
  refine ⟨hval, by norm_num [LOW_EPS], by norm_num [HIGH_EPS], ?_⟩
  intro residual1 residual3 sraot1 sraot3 rerun
  rw [hval]
  constructor <;> norm_num [epsSelect, LOW_EPS, HIGH_EPS]

/-- Modelled from the spec: ipflag bit positions FILL = 0, CLEAR = 1,
WATER = 2 (spec section 3 per-pixel state); the defining header is not
under src. -/
def IPFLAG_FILL : ℕ := 0

/-- Modelled from the spec: the CLEAR bit position, 1. -/
def IPFLAG_CLEAR : ℕ := 1

/-- Modelled from the spec: the WATER bit position, 2. -/
def IPFLAG_WATER : ℕ := 2

/-- Modelled from the spec: lasrc_qa_is_water tests the WATER bit of the
aerosol QA byte (spec section 4.4 step 9, the water retest runs when the
WATER bit is set); its source, read_level2_qa, is not under src. -/
def lasrc_qa_is_water (v : ℕ) : Bool := v.testBit IPFLAG_WATER

/-- Land-retrieval classification at a window center (lines 1094-1135):
the model residual is tested against the land threshold
0.015 + 0.005*corf + 0.10*troatm[B7]; on success the NDVI sanity check
decides CLEAR versus WATER, on failure WATER is set; both writes are
bitwise ors onto the current ipflag value. -/
def landClassify (ipflag0 : ℕ) (residual corf troatm7 ros5 ros4 : ℚ) : ℕ :=
  if residual < 15/1000 + 5/1000 * corf + 10/100 * troatm7 then
    if 1/10 < ros5 ∧ 0 < (ros5 - ros4) / (ros5 + ros4) then
      ipflag0 ||| (1 <<< IPFLAG_CLEAR)
    else
      ipflag0 ||| (1 <<< IPFLAG_WATER)
  else
    ipflag0 ||| (1 <<< IPFLAG_WATER)

/-- Water retest at a window center (lines 1137-1188): when the WATER bit
is set the water retrieval runs and the center ipflag is overwritten with
0 (invalid retrieval) when residual > 0.010 + 0.005*corf or ros1 < 0, and
with CLEAR and WATER both set (valid water) otherwise; when the WATER bit
is not set the ipflag is left unchanged. -/
def waterRetest (ipflag1 : ℕ) (residual corf ros1 : ℚ) : ℕ :=
  if lasrc_qa_is_water ipflag1 then
    if 1/100 + 5/1000 * corf < residual ∨ ros1 < 0 then 0
    else (1 <<< IPFLAG_CLEAR) ||| (1 <<< IPFLAG_WATER)
  else ipflag1

/-- Combined per-center ipflag update of the aerosol-inversion window
pass: the land classification followed by the water retest. -/
def windowCenterFlag (ipflag0 : ℕ)
    (residL corfL troatm7 ros5 ros4 residW corfW ros1 : ℚ) : ℕ :=
  waterRetest (landClassify ipflag0 residL corfL troatm7 ros5 ros4) residW corfW ros1

/-- C3: after the window pass, the ipflag of a non-fill window center
(which starts the pass at 0) is one of: exactly the CLEAR bit, exactly the
WATER bit, both CLEAR and WATER, or 0. -/
theorem windowCenterFlag_C3 (residL corfL troatm7 ros5 ros4 residW corfW ros1 : ℚ) :
    windowCenterFlag 0 residL corfL troatm7 ros5 ros4 residW corfW ros1
        = 1 <<< IPFLAG_CLEAR ∨
    windowCenterFlag 0 residL corfL troatm7 ros5 ros4 residW corfW ros1
        = 1 <<< IPFLAG_WATER ∨
    windowCenterFlag 0 residL corfL troatm7 ros5 ros4 residW corfW ros1
        = (1 <<< IPFLAG_CLEAR) ||| (1 <<< IPFLAG_WATER) ∨
    windowCenterFlag 0 residL corfL troatm7 ros5 ros4 residW corfW ros1
        = 0 := by
  unfold windowCenterFlag landClassify waterRetest lasrc_qa_is_water
  split_ifs <;> simp_all

/-- C5 evaluation at the failing input: a fill window center (ipflag has
only the FILL bit) processed through a non-fill substitute, whose land
retrieval flags WATER (residual 1 at threshold 0.015) and whose water
retest fails (residual 1 at threshold 0.010), ends the window pass with
ipflag = 0: the FILL bit has been erased, contradicting the claim that
fill pixels always carry FILL in the output QA. -/
theorem windowCenterFlag_C5_fill_erased :
    windowCenterFlag (1 <<< IPFLAG_FILL) 1 0 0 0 0 1 0 0 = 0 ∧
    Nat.testBit (windowCenterFlag (1 <<< IPFLAG_FILL) 1 0 0 0 0 1 0 0) IPFLAG_FILL
      = false := by
  have hland : landClassify (1 <<< IPFLAG_FILL) 1 0 0 0 0
      = (1 <<< IPFLAG_FILL) ||| (1 <<< IPFLAG_WATER) := by
    unfold landClassify
    rw [if_neg (by norm_num : ¬((1:ℚ) < 15/1000 + 5/1000 * 0 + 10/100 * 0))]
  have hwater : waterRetest ((1 <<< IPFLAG_FILL) ||| (1 <<< IPFLAG_WATER)) 1 0 0 = 0 := by
    unfold waterRetest
    rw [if_pos (by decide :
          lasrc_qa_is_water ((1 <<< IPFLAG_FILL) ||| (1 <<< IPFLAG_WATER)) = true),
        if_pos (Or.inl (by norm_num : (1:ℚ)/100 + 5/1000 * 0 < 1))]
  have h : windowCenterFlag (1 <<< IPFLAG_FILL) 1 0 0 0 0 1 0 0 = 0 := by
    unfold windowCenterFlag
    rw [hland, hwater]
  exact ⟨h, by rw [h]; decide⟩

/-- Modelled from the spec: number of entries of the erelc and troatm band
arrays (NSR_BANDS); spec section 4 indexes reflectance bands by
ib in [0..7].  The value itself does not matter below, only that the band
indices 0, 1, 3, 4, 6 are distinct. -/
def NSR_BANDS : ℕ := 8

/-- Modelled from the spec: zero-based DN band index of Landsat band 1. -/
def DNL_BAND1 : ℕ := 0

/-- Modelled from the spec: zero-based DN band index of Landsat band 2. -/
def DNL_BAND2 : ℕ := 1

/-- Modelled from the spec: zero-based DN band index of Landsat band 4. -/
def DNL_BAND4 : ℕ := 3

/-- Modelled from the spec: zero-based DN band index of Landsat band 5. -/
def DNL_BAND5 : ℕ := 4

/-- Modelled from the spec: zero-based DN band index of Landsat band 7. -/
def DNL_BAND7 : ℕ := 6

/-- Land-retrieval setup of the erelc and troatm arrays
(lines 1004-1021): both arrays are reset (erelc to -1, troatm to 0), then
the band-ratio entries for bands 1, 2, 4, 7 and the TOA snapshots
aerob1, aerob2, aerob4, aerob7 are written. -/
def landSetup (xndwi slprb1 intrb1 slprb2 intrb2 slprb7 intrb7 a1 a2 a4 a7 : ℚ) :
    (ℕ → ℚ) × (ℕ → ℚ) :=
  let erelc := Function.update (Function.update (Function.update (Function.update
      (fun _ => (-1 : ℚ))
      DNL_BAND1 (xndwi * slprb1 + intrb1)) DNL_BAND2 (xndwi * slprb2 + intrb2))
      DNL_BAND4 1) DNL_BAND7 (xndwi * slprb7 + intrb7)
  let troatm := Function.update (Function.update (Function.update (Function.update
      (fun _ => (0 : ℚ))
      DNL_BAND1 a1) DNL_BAND2 a2) DNL_BAND4 a4) DNL_BAND7 a7
  (erelc, troatm)

/-- Water-retrieval setup (lines 1141-1153): erelc is reset to -1 and its
entries for bands 1, 4, 5, 7 are set to 1; troatm is NOT reset — only its
entries for bands 1, 4, 5, 7 are overwritten with the aerob snapshots,
every other entry keeps whatever the land pass left there. -/
def waterSetup (troatmLand : ℕ → ℚ) (a1 a4 a5 a7 : ℚ) : (ℕ → ℚ) × (ℕ → ℚ) :=
  let troatm := Function.update (Function.update (Function.update (Function.update
      troatmLand DNL_BAND1 a1) DNL_BAND4 a4) DNL_BAND5 a5) DNL_BAND7 a7
  let erelc := Function.update (Function.update (Function.update (Function.update
      (fun _ => (-1 : ℚ))
      DNL_BAND1 1) DNL_BAND4 1) DNL_BAND5 1) DNL_BAND7 1
  (erelc, troatm)

/-- Record of one subaeroret_new invocation. -/
structure SubaeroCall where
  water : Bool
  eps : ℚ
  erelc : ℕ → ℚ
  troatm : ℕ → ℚ

instance : Inhabited SubaeroCall := ⟨⟨false, 0, fun _ => 0, fun _ => 0⟩⟩

/-- Water branch of the window pass (lines 1141-1160): the list of
subaeroret_new calls it issues — a single call with water = true and
eps = 1.5, on the arrays produced by waterSetup. -/
def waterBranchCalls (troatmLand : ℕ → ℚ) (a1 a4 a5 a7 : ℚ) : List SubaeroCall :=
  [⟨true, 3/2, (waterSetup troatmLand a1 a4 a5 a7).1,
    (waterSetup troatmLand a1 a4 a5 a7).2⟩]

/-- C6 counterexample: with land-pass snapshots
(aerob1, aerob2, aerob4, aerob7) = (1/10, 3/10, 2/5, 1/2) and water-pass
snapshots (11/100, 12/100, 13/100, 14/100), the troatm entry of band 2
after the water setup is 3/10 — the stale aerob2 value of the land pass —
which differs from every water-pass snapshot and from 0; so the claim that
no entry of troatm retains a stale land-pass value is false. -/
theorem waterSetup_C6_counterexample :
    (waterSetup ((landSetup 0 0 0 0 0 0 0 (1/10) (3/10) (2/5) (1/2)).2)
        (11/100) (12/100) (13/100) (14/100)).2 DNL_BAND2 = 3/10 ∧
    (3/10 : ℚ) ≠ 11/100 ∧ (3/10 : ℚ) ≠ 12/100 ∧ (3/10 : ℚ) ≠ 13/100 ∧
    (3/10 : ℚ) ≠ 14/100 ∧ (3/10 : ℚ) ≠ 0 := by
  refine ⟨?_, by norm_num, by norm_num, by norm_num, by norm_num, by norm_num⟩
  simp [waterSetup, landSetup, Function.update, DNL_BAND1, DNL_BAND2,
    DNL_BAND4, DNL_BAND5, DNL_BAND7]

/-- C6 amended: the water branch issues exactly one subaeroret_new call,
with water = true and eps = 1.5; its erelc is 1 on bands 1, 4, 5, 7 and
-1 elsewhere; its troatm holds the aerob1, aerob4, aerob5, aerob7
snapshots on bands 1, 4, 5, 7 while every other entry keeps the land-pass
value (in particular band 2 retains the stale aerob2 snapshot). -/
theorem waterBranchCalls_C6_amended (troatmLand : ℕ → ℚ) (a1 a4 a5 a7 : ℚ) :
    (waterBranchCalls troatmLand a1 a4 a5 a7).length = 1 ∧
    (waterBranchCalls troatmLand a1 a4 a5 a7).headI.water = true ∧
    (waterBranchCalls troatmLand a1 a4 a5 a7).headI.eps = 3/2 ∧
    (waterBranchCalls troatmLand a1 a4 a5 a7).headI.erelc DNL_BAND1 = 1 ∧
    (waterBranchCalls troatmLand a1 a4 a5 a7).headI.erelc DNL_BAND4 = 1 ∧
    (waterBranchCalls troatmLand a1 a4 a5 a7).headI.erelc DNL_BAND5 = 1 ∧
    (waterBranchCalls troatmLand a1 a4 a5 a7).headI.erelc DNL_BAND7 = 1 ∧
    (waterBranchCalls troatmLand a1 a4 a5 a7).headI.troatm DNL_BAND1 = a1 ∧
    (waterBranchCalls troatmLand a1 a4 a5 a7).headI.troatm DNL_BAND4 = a4 ∧
    (waterBranchCalls troatmLand a1 a4 a5 a7).headI.troatm DNL_BAND5 = a5 ∧
    (waterBranchCalls troatmLand a1 a4 a5 a7).headI.troatm DNL_BAND7 = a7 ∧
    (∀ ib, ib ≠ DNL_BAND1 → ib ≠ DNL_BAND4 → ib ≠ DNL_BAND5 → ib ≠ DNL_BAND7 →
      (waterBranchCalls troatmLand a1 a4 a5 a7).headI.erelc ib = -1 ∧
      (waterBranchCalls troatmLand a1 a4 a5 a7).headI.troatm ib = troatmLand ib) := by
  unfold waterBranchCalls waterSetup
  refine ⟨rfl, rfl, rfl, ?_, ?_, ?_, ?_, ?_, ?_, ?_, ?_, ?_⟩
  case refine_9 =>
    intro ib h1 h4 h5 h7
    simp only [DNL_BAND1, DNL_BAND4, DNL_BAND5, DNL_BAND7] at h1 h4 h5 h7 ⊢
    constructor <;> simp [Function.update, h1, h4, h5, h7]
  all_goals
    simp [Function.update, DNL_BAND1, DNL_BAND4, DNL_BAND5, DNL_BAND7]

/-- Witness for the amended C6 with troatmLand constantly 9 and snapshots
1, 2, 3, 4; band 2 keeps the land value 9. -/
theorem waterBranchCalls_C6_amended_witness :
    (waterBranchCalls (fun _ => (9 : ℚ)) 1 2 3 4).length = 1 ∧
    (waterBranchCalls (fun _ => (9 : ℚ)) 1 2 3 4).headI.eps = 3/2 ∧
    (waterBranchCalls (fun _ => (9 : ℚ)) 1 2 3 4).headI.erelc DNL_BAND2 = -1 ∧
    (waterBranchCalls (fun _ => (9 : ℚ)) 1 2 3 4).headI.troatm DNL_BAND2 = 9 := by
  have h := waterBranchCalls_C6_amended (fun _ => (9 : ℚ)) 1 2 3 4
  have hb := h.2.2.2.2.2.2.2.2.2.2.2 DNL_BAND2 (by decide) (by decide) (by decide) (by decide)
  exact ⟨h.1, h.2.2.1, hb.1, hb.2⟩

/-- One band row of the iaMax scan loop (lines 699-713), with explicit
fuel; ia is the loop counter, cur the running iaMaxTemp value, and r the
roatm_arr row of the band.  In each iteration with ia < N, iaMaxTemp is
first set to N-1 when ia = N-1; then, when the consecutive difference
exceeds eps the loop continues, otherwise it breaks with iaMaxTemp = ia-1. -/
def iaMaxGo (r : ℕ → ℚ) (eps : ℚ) (N : ℕ) : ℕ → ℕ → ℕ → ℕ
  | 0, _, cur => cur
  | fuel + 1, ia, cur =>
    if ia < N then
      if eps < r ia - r (ia - 1) then
        iaMaxGo r eps N fuel (ia + 1) (if ia = N - 1 then N - 1 else cur)
      else ia - 1
    else cur

/-- iaMax determination for one band: the scan over ia in [1, NAOT_VALS-1]
with iaMaxTemp initialized to 1 and NAOT_VALS = 22 (the aot550nm table has
22 entries); eps stands for ESPA_EPSILON, whose defining header is not
under src, so the scan is stated for an arbitrary threshold. -/
def iaMaxScan (r : ℕ → ℚ) (eps : ℚ) : ℕ := iaMaxGo r eps 22 22 1 1

/-- Once the loop counter reaches N the scan returns the running value. -/
theorem iaMaxGo_at_end (r : ℕ → ℚ) (eps : ℚ) (N fuel cur : ℕ) :
    iaMaxGo r eps N fuel N cur = cur := by
  cases fuel <;> simp [iaMaxGo]

/-- When every remaining consecutive difference exceeds eps, the scan runs
to the end and returns 21. -/
theorem iaMaxGo_run_to_end (r : ℕ → ℚ) (eps : ℚ) :
    ∀ fuel ia cur, 1 ≤ ia → ia ≤ 21 → 22 - ia ≤ fuel →
      (∀ k, ia ≤ k → k ≤ 21 → eps < r k - r (k - 1)) →
      iaMaxGo r eps 22 fuel ia cur = 21 := by
  intro fuel
  induction fuel with
  | zero => intro ia cur h1 h2 h3 _; omega
  | succ fuel ih =>
    intro ia cur h1 h2 h3 hall
    rw [iaMaxGo, if_pos (by omega : ia < 22),
      if_pos (hall ia le_rfl h2)]
    by_cases hend : ia = 21
    · rw [if_pos (by omega : ia = 22 - 1)]
      have : ia + 1 = 22 := by omega
      rw [this, iaMaxGo_at_end]
    · rw [if_neg (by omega : ¬ ia = 22 - 1)]
      exact ih (ia + 1) cur (by omega) (by omega) (by omega)
        (fun k hk h21 => hall k (by omega) h21)

/-- When the first crossing of the eps threshold happens at index ia0, the
scan breaks there and returns ia0 - 1, independently of the running value. -/
theorem iaMaxGo_break (r : ℕ → ℚ) (eps : ℚ) :
    ∀ fuel ia cur ia0, 1 ≤ ia → ia ≤ ia0 → ia0 ≤ 21 → 22 - ia ≤ fuel →
      r ia0 - r (ia0 - 1) ≤ eps →
      (∀ k, ia ≤ k → k < ia0 → eps < r k - r (k - 1)) →
      iaMaxGo r eps 22 fuel ia cur = ia0 - 1 := by
  intro fuel
  induction fuel with
  | zero => intro ia cur ia0 h1 h2 h3 h4 _ _; omega
  | succ fuel ih =>
    intro ia cur ia0 h1 h2 h3 h4 hbreak hbefore
    rw [iaMaxGo, if_pos (by omega : ia < 22)]
    by_cases heq : ia = ia0
    · subst heq
      rw [if_neg (not_lt.mpr hbreak)]
    · rw [if_pos (hbefore ia le_rfl (by omega))]
      exact ih (ia + 1) _ ia0 (by omega) (by omega) h3 (by omega) hbreak
        (fun k hk hk0 => hbefore k (by omega) hk0)

/-- C7: for every band row r, the iaMax scan returns ia0 - 1 where ia0 is
the smallest index in [1, NAOT_VALS-1] whose consecutive roatm difference
is at most the threshold, and NAOT_VALS - 1 = 21 when every consecutive
difference over [1, NAOT_VALS-1] exceeds the threshold. -/
theorem iaMaxScan_C7 (r : ℕ → ℚ) (eps : ℚ) :
    ((∀ k, 1 ≤ k → k ≤ 21 → eps < r k - r (k - 1)) → iaMaxScan r eps = 21) ∧
    (∀ ia0, 1 ≤ ia0 → ia0 ≤ 21 → r ia0 - r (ia0 - 1) ≤ eps →
      (∀ k, 1 ≤ k → k < ia0 → eps < r k - r (k - 1)) →
      iaMaxScan r eps = ia0 - 1) :=
  ⟨fun hall => iaMaxGo_run_to_end r eps 22 1 1 le_rfl (by norm_num) (by norm_num) hall,
   fun ia0 h1 h2 hbreak hbefore =>
     iaMaxGo_break r eps 22 1 1 ia0 le_rfl h1 h2 (by norm_num) hbreak hbefore⟩

/-- Witness for C7: a strictly increasing row scans to 21; a constant row
breaks at ia0 = 1 and returns 0. -/
theorem iaMaxScan_C7_witness :
    iaMaxScan (fun k => (k : ℚ)) 0 = 21 ∧ iaMaxScan (fun _ => (0 : ℚ)) 0 = 0 := by
  constructor
  · apply (iaMaxScan_C7 (fun k => (k : ℚ)) 0).1
    intro k hk1 hk21
    have hcast : ((k - 1 : ℕ) : ℚ) = (k : ℚ) - 1 := by
      rw [Nat.cast_sub hk1, Nat.cast_one]
    simp only [hcast]
    norm_num
  · exact (iaMaxScan_C7 (fun _ => (0 : ℚ)) 0).2 1 le_rfl (by norm_num) (by norm_num)
      (fun k hk1 hk2 => absurd hk2 (by omega))

/-- One cell of the band-ratio grids: the read-only fields ratiob1,
ratiob2, ratiob7, sndwi (mean ratios and NDWI deviation, scaled by 1000)
and the mutable slope and intercept fields. -/
structure RatioCell where
  ratiob1 : ℤ
  ratiob2 : ℤ
  ratiob7 : ℤ
  sndwi : ℤ
  slpratiob1 : ℤ
  slpratiob2 : ℤ
  slpratiob7 : ℤ
  intratiob1 : ℤ
  intratiob2 : ℤ
  intratiob7 : ℤ
deriving DecidableEq

/-- Per-neighbor ratio guard (lines 851-870, repeated verbatim for the
four neighbor cells): when the unscaled ratios rb1 = ratiob1*0.001 or
rb2 = ratiob2*0.001 leave [0.1, 1.0], the cell is overwritten with the
default fill (slopes 0, intercepts 550/600/2000); otherwise when
sndwi < 200 the slopes are zeroed and the mean ratios are copied to the
intercepts; otherwise the cell is unchanged.  ratiob1, ratiob2, ratiob7
and sndwi are only read. -/
def ratioGuard (c : RatioCell) : RatioCell :=
  let rb1 : ℚ := (c.ratiob1 : ℚ) * (1/1000)
  let rb2 : ℚ := (c.ratiob2 : ℚ) * (1/1000)
  if 1 < rb2 ∨ 1 < rb1 ∨ rb2 < 1/10 ∨ rb1 < 1/10 then
    { c with slpratiob1 := 0, slpratiob2 := 0, slpratiob7 := 0,
             intratiob1 := 550, intratiob2 := 600, intratiob7 := 2000 }
  else if c.sndwi < 200 then
    { c with slpratiob1 := 0, slpratiob2 := 0, slpratiob7 := 0,
             intratiob1 := c.ratiob1, intratiob2 := c.ratiob2,
             intratiob7 := c.ratiob7 }
  else c

/-- C8: the per-neighbor ratio guard is idempotent — a second application
to any cell state reachable after one application writes the identical
values, because the branch conditions read only the immutable ratiob and
sndwi fields. -/
theorem ratioGuard_C8_idempotent (c : RatioCell) :
    ratioGuard (ratioGuard c) = ratioGuard c := by
  by_cases h1 : (1 : ℚ) < (c.ratiob2 : ℚ) * (1/1000) ∨
      (1 : ℚ) < (c.ratiob1 : ℚ) * (1/1000) ∨
      (c.ratiob2 : ℚ) * (1/1000) < 1/10 ∨ (c.ratiob1 : ℚ) * (1/1000) < 1/10
  · have e1 : ratioGuard c = { c with slpratiob1 := 0, slpratiob2 := 0, slpratiob7 := 0, intratiob1 := 550, intratiob2 := 600, intratiob7 := 2000 } := by
      simp only [ratioGuard]
      rw [if_pos h1]
    rw [e1]
    simp only [ratioGuard]
    rw [if_pos h1]
  · by_cases h2 : c.sndwi < 200
    · have e1 : ratioGuard c = { c with slpratiob1 := 0, slpratiob2 := 0, slpratiob7 := 0, intratiob1 := c.ratiob1, intratiob2 := c.ratiob2, intratiob7 := c.ratiob7 } := by
        simp only [ratioGuard]
        rw [if_neg h1, if_pos h2]
      rw [e1]
      simp only [ratioGuard]
      rw [if_neg h1, if_pos h2]
    · have e1 : ratioGuard c = c := by
        simp only [ratioGuard]
        rw [if_neg h1, if_neg h2]
      rw [e1, e1]

/-- Modelled from the spec: CMG grid rows of the 0.05-degree global grid,
3600; the defining header is not under src. -/
def CMG_NBLAT : ℤ := 3600

/-- Modelled from the spec: CMG grid columns of the 0.05-degree global
grid, 7200. -/
def CMG_NBLON : ℤ := 7200

/-- C-style cast of a rational to int: truncation toward zero. -/
def ctrunc (q : ℚ) : ℤ := if 0 ≤ q then ⌊q⌋ else ⌈q⌉

/-- CMG index data computed for one pixel: the clamped cell, the
interpolation neighbors, and the bilinear weights. -/
structure CmgIndex where
  lcmg : ℤ
  scmg : ℤ
  lcmg1 : ℤ
  scmg1 : ℤ
  u : ℚ
  v : ℚ
deriving DecidableEq

/-- CMG indexing of a pixel lat/lon in degrees (lines 804-843): scaled
truncation ycmg = (89.975 - lat)*20, xcmg = (179.975 + lon)*20, edge
clamping of (lcmg, scmg), dateline wrap of the longitude neighbor, pole
clamp of the latitude neighbor, and fractional weights u, v. -/
def cmgIndexOf (lat lon : ℚ) : CmgIndex :=
  let ycmg : ℚ := (89975/1000 - lat) * 20
  let xcmg : ℚ := (179975/1000 + lon) * 20
  let lcmg0 : ℤ := ctrunc ycmg
  let scmg0 : ℤ := ctrunc xcmg
  let lcmg : ℤ := if lcmg0 < 0 then 0
    else if CMG_NBLAT ≤ lcmg0 then CMG_NBLAT - 1 else lcmg0
  let scmg : ℤ := if scmg0 < 0 then 0
    else if CMG_NBLON ≤ scmg0 then CMG_NBLON - 1 else scmg0
  let scmg1 : ℤ := if CMG_NBLON - 1 ≤ scmg then 0 else scmg + 1
  let lcmg1 : ℤ := if CMG_NBLAT - 1 ≤ lcmg then lcmg else lcmg + 1
  ⟨lcmg, scmg, lcmg1, scmg1, ycmg - lcmg, xcmg - scmg⟩

/-- C9: a pixel at lat = 89.975, lon = 179.975 degrees resolves to
(lcmg, scmg) = (0, CMG_NBLON - 1) with CMG_NBLON = 7200; the longitude
neighbor wraps to scmg1 = 0 and the latitude neighbor is lcmg1 = 1. -/
theorem cmgIndexOf_C9 :
    cmgIndexOf (89975/1000) (179975/1000)
      = ⟨0, CMG_NBLON - 1, 1, 0, 0, 0⟩ ∧ CMG_NBLON = 7200 := by
  constructor
  · have h0 : ctrunc ((89975/1000 - 89975/1000) * 20) = 0 := by
      unfold ctrunc
      norm_num
    have h7199 : ctrunc ((179975/1000 + 179975/1000) * 20) = 7199 := by
      unfold ctrunc
      norm_num
    simp only [cmgIndexOf, h0, h7199]
    norm_num [CMG_NBLAT, CMG_NBLON, CmgIndex.mk.injEq]
  · rfl

/-- AOT sample grid of the lookup table (lines 476-478), as exact
rationals. -/
def aot550nm : ℕ → ℚ
  | 0 => 1/100 | 1 => 1/20 | 2 => 1/10 | 3 => 3/20 | 4 => 1/5 | 5 => 3/10
  | 6 => 2/5 | 7 => 3/5 | 8 => 4/5 | 9 => 1 | 10 => 6/5 | 11 => 7/5
  | 12 => 8/5 | 13 => 9/5 | 14 => 2 | 15 => 23/10 | 16 => 13/5 | 17 => 3
  | 18 => 7/2 | 19 => 4 | 20 => 9/2 | 21 => 5
  | _ => 0

/-- Output quadruple of one atmcorlamb2 evaluation that the climatology
stage stores per band: (tgo, roatm, ttatmg, satm) (lines 598-602). -/
structure AtmOut where
  tgo : ℚ
  roatm : ℚ
  ttatmg : ℚ
  satm : ℚ
deriving DecidableEq

/-- Climatology coefficient setup (lines 575-604): the loop over the eight
reflectance bands issues, per band, a single atmcorlamb2 call at
raot550nm = aot550nm[1] and eps = 2.5 with the scene-center geometry,
pressure, ozone and water vapor; kernel abstracts atmcorlamb2 (whose
source is not under src) as a map from (band, AOT, eps) to the stored
quadruple, the scene-center inputs being fixed inside it.  Each list entry
records (band, AOT argument, eps argument, result). -/
def climCoefCalls (kernel : ℕ → ℚ → ℚ → AtmOut) : List (ℕ × ℚ × ℚ × AtmOut) :=
  (List.range 8).map (fun ib => (ib, aot550nm 1, 5/2, kernel ib (aot550nm 1) (5/2)))

/-- Per-band coefficient quadruple (btgo, broatm, bttatmg, bsatm) as
stored by the climatology stage (lines 598-602). -/
def climCoefOf (kernel : ℕ → ℚ → ℚ → AtmOut) (ib : ℕ) : AtmOut :=
  kernel ib (aot550nm 1) (5/2)

/-- Per-pixel climatology correction stage for band ib (lines 639-648),
using the stored scene-center coefficients. -/
def climStagePixel (kernel : ℕ → ℚ → ℚ → AtmOut) (ib : ℕ) (minv maxv rho : ℚ) : ℚ :=
  climAtmcorrStored minv maxv (climCoefOf kernel ib).tgo (climCoefOf kernel ib).roatm
    (climCoefOf kernel ib).ttatmg (climCoefOf kernel ib).satm rho

/-- TOA reconstruction step of the final correction for band ib
(lines 1309-1311), using the same stored scene-center coefficients. -/
def finalReconstruct (kernel : ℕ → ℚ → ℚ → AtmOut) (ib : ℕ) (rsurf : ℚ) : ℚ :=
  reconstructTOA (climCoefOf kernel ib).tgo (climCoefOf kernel ib).roatm
    (climCoefOf kernel ib).ttatmg (climCoefOf kernel ib).satm rsurf

/-- C10: the scene-wide climatology coefficients used by both the
climatology correction stage and the TOA reconstruction of the final
correction come from a single atmcorlamb2 evaluation per band, at the
fixed AOT = aot550nm[1] = 0.05 and eps = 2.5: the call trace has exactly
one entry per band ib in [0..7], each carrying those arguments, and both
stages read exactly that evaluation's quadruple. -/
theorem climCoefCalls_C10 (kernel : ℕ → ℚ → ℚ → AtmOut) (ib : ℕ) (hib : ib < 8) :
    (climCoefCalls kernel).length = 8 ∧
    (climCoefCalls kernel).map (fun c => c.1) = List.range 8 ∧
    aot550nm 1 = 1/20 ∧
    (ib, aot550nm 1, 5/2, kernel ib (aot550nm 1) (5/2)) ∈ climCoefCalls kernel ∧
    (∀ minv maxv rho, climStagePixel kernel ib minv maxv rho
      = climAtmcorrStored minv maxv (kernel ib (1/20) (5/2)).tgo
          (kernel ib (1/20) (5/2)).roatm (kernel ib (1/20) (5/2)).ttatmg
          (kernel ib (1/20) (5/2)).satm rho) ∧
    (∀ rsurf, finalReconstruct kernel ib rsurf
      = reconstructTOA (kernel ib (1/20) (5/2)).tgo (kernel ib (1/20) (5/2)).roatm
          (kernel ib (1/20) (5/2)).ttatmg (kernel ib (1/20) (5/2)).satm rsurf) := by
  have ha : aot550nm 1 = 1/20 := rfl
  refine ⟨by simp [climCoefCalls], by simp [climCoefCalls, Function.comp_def], ha, ?_, ?_, ?_⟩
  · unfold climCoefCalls
    exact List.mem_map.mpr ⟨ib, List.mem_range.mpr hib, rfl⟩
  · intro minv maxv rho
    unfold climStagePixel climCoefOf
    rw [ha]
  · intro rsurf
    unfold finalReconstruct climCoefOf
    rw [ha]

/-- Witness for C10 at band 2 with a kernel recording its arguments. -/
theorem climCoefCalls_C10_witness :
    (climCoefCalls (fun ib a e => ⟨ib, a, e, 0⟩)).length = 8 ∧
    climStagePixel (fun ib a e => ⟨(ib : ℚ), a, e, 0⟩) 2 0 1 (1/2)
      = climAtmcorrStored 0 1 2 (1/20) (5/2) 0 (1/2) := by
  have h := climCoefCalls_C10 (fun ib a e => ⟨(ib : ℚ), a, e, 0⟩) 2 (by norm_num)
  refine ⟨h.1, ?_⟩
  rw [h.2.2.2.2.1 0 1 (1/2)]
  norm_num

end LasrcRefl
